import Mathlib

/-!
Verification of the manga-search application (src/app.py): title, volume and
price filtering, ISBN deduplication, paginated fetch with retry, the
selection/append workflow, and the spreadsheet writer.  Strings are modelled
as lists of characters; Python string operations (lower, split, strip,
substring membership) are given as executable Lean functions.
-/

namespace MangaSearch

/-- Whitespace test used by Python's default str.split and str.strip. -/
def isWs (c : Char) : Bool :=
  c == ' ' || c == '\t' || c == '\n' || c == '\r'

/-- Python str.lower, character by character. -/
def lowerL (s : List Char) : List Char := s.map Char.toLower

/-- Whether the first list is an initial segment of the second. -/
def startsWithL : List Char → List Char → Bool
  | [], _ => true
  | _ :: _, [] => false
  | a :: as, b :: bs => a == b && startsWithL as bs

/-- Python substring membership: containsSub hay needle is true when needle
occurs contiguously inside hay (the Python expression needle in hay). -/
def containsSub : List Char → List Char → Bool
  | [], needle => needle.isEmpty
  | h :: t, needle => startsWithL needle (h :: t) || containsSub t needle

/-- Accumulator pass for Python str.split with no separator: splits on runs
of whitespace and drops empty pieces. -/
def splitWsAux : List Char → List Char → List (List Char)
  | cur, [] => if cur.isEmpty then [] else [cur.reverse]
  | cur, c :: rest =>
    if isWs c then
      if cur.isEmpty then splitWsAux [] rest
      else cur.reverse :: splitWsAux [] rest
    else splitWsAux (c :: cur) rest

/-- Python str.split with no separator. -/
def splitWs (s : List Char) : List (List Char) := splitWsAux [] s

/-- Python str.strip: drop leading and trailing whitespace. -/
def stripWs (s : List Char) : List Char :=
  ((s.dropWhile isWs).reverse.dropWhile isWs).reverse

/-- The itemPrice value found in a raw API record: absent (the dict has no
itemPrice key, Python book.get gives the default 0), a number, or a truthy
non-numeric value on which Python int() raises. -/
inductive RawPrice where
  | absent
  | num (n : Nat)
  | bad
deriving DecidableEq

/-- A raw catalog record as parsed from one Items entry of the API response. -/
structure Book where
  title : List Char
  isbn : List Char
  salesDate : List Char
  itemPrice : RawPrice
  publisherName : Option (List Char)
deriving DecidableEq

/-- A filtered, display-ready result row as built in search_books_with_volume. -/
structure ResultRecord where
  rtitle : List Char
  risbn : List Char
  rsalesDate : List Char
  rprice : List Char
  rpublisher : List Char
deriving DecidableEq

/-- The search query: required title, optional volume token and price bounds. -/
structure Query where
  title : List Char
  volume_number : List Char
  min_price : Option Nat
  max_price : Option Nat

/-- title_matches from app.py: lower-case both strings, split the search
title on whitespace, and require every word to occur in the book title. -/
def title_matches (book_title search_title : List Char) : Bool :=
  (splitWs (lowerL search_title)).all (fun w => containsSub (lowerL book_title) w)

/-- The volume filter of search_books_with_volume: the record survives the
Python guard (volume_number and volume_number not in book_title) when the
token is empty or occurs in the title. -/
def volume_ok (book_title volume_number : List Char) : Bool :=
  volume_number.isEmpty || containsSub book_title volume_number

/-- The Python expression (int(item_price) if item_price else 0), returning
none when int() raises ValueError or TypeError. -/
def priceValue : RawPrice → Option Nat
  | .absent => some 0
  | .num n => some (if n == 0 then 0 else n)
  | .bad => none

/-- The price filtering block of search_books_with_volume: compute
price_value, reject when a given bound is violated or parsing raised;
on success return the computed price_value. -/
def price_check (rp : RawPrice) (min_price max_price : Option Nat) : Option Nat :=
  match priceValue rp with
  | none => none
  | some v =>
    if (match min_price with | some m => decide (v < m) | none => false) then none
    else if (match max_price with | some m => decide (m < v) | none => false) then none
    else some v

/-- Price display string: f-string price_value followed by the yen sign. -/
def formatPrice (v : Nat) : List Char := (Nat.repr v).data ++ ['円']

/-- Publisher display: book.get with the unknown marker as default. -/
def formatPublisher : Option (List Char) → List Char
  | some p => p
  | none => ("不明".data)

/-- The per-record filtering body of search_books_with_volume (title filter,
volume filter, price filter, then building the display row); deduplication
happens separately against the accumulated list. -/
def accept_book (q : Query) (book : Book) : Option ResultRecord :=
  if !title_matches book.title q.title then none
  else if !volume_ok book.title q.volume_number then none
  else
    match price_check book.itemPrice q.min_price q.max_price with
    | none => none
    | some v =>
      some { rtitle := book.title, risbn := book.isbn, rsalesDate := book.salesDate,
             rprice := formatPrice v, rpublisher := formatPublisher book.publisherName }

/-- The inner loop over one page's books: each accepted record is appended to
page_results unless its ISBN already occurs in all_results (the list
accumulated from earlier pages; page_results itself is not consulted). -/
def process_page (q : Query) (all_results : List ResultRecord) :
    List Book → List ResultRecord → List ResultRecord
  | [], page_results => page_results
  | b :: rest, page_results =>
    match accept_book q b with
    | none => process_page q all_results rest page_results
    | some r =>
      if all_results.any (fun x => x.risbn == r.risbn)
      then process_page q all_results rest page_results
      else process_page q all_results rest (page_results ++ [r])

/-- Parsed body of a 200 response for one page: either the Items list (empty
when the catalog is exhausted) or a body on which json parsing or item
access raises, dropping the whole page. -/
inductive PageBody where
  | items (books : List Book)
  | malformed
deriving DecidableEq

/-- Outcome of one HTTP request attempt: a response with a status code and
body, or a transport-level exception. -/
inductive Attempt where
  | success (status : Nat) (body : PageBody)
  | transportFail
deriving DecidableEq

/-- Whether an attempt is an HTTP 200 response (the break condition of the
retry loop). -/
def attemptOk : Attempt → Bool
  | .success status _ => status == 200
  | .transportFail => false

/-- The retry loop of search_books_with_volume for one page: up to retries
requests, stopping at the first 200 response; attempts past the end of the
script behave as transport failures.  none models the for-else branch
(retries exhausted, page skipped). -/
def fetch_page : Nat → List Attempt → Option PageBody
  | 0, _ => none
  | r + 1, [] => fetch_page r []
  | r + 1, a :: rest =>
    match a with
    | .success status body => if status == 200 then some body else fetch_page r rest
    | .transportFail => fetch_page r rest

/-- How many HTTP requests the retry loop issues for one page. -/
def attemptsUsed : Nat → List Attempt → Nat
  | 0, _ => 0
  | r + 1, [] => 1 + attemptsUsed r []
  | r + 1, a :: rest => if attemptOk a then 1 else 1 + attemptsUsed r rest

/-- The page loop of search_books_with_volume over the scripted pages, in
ascending page order: a page whose retries are exhausted or whose body is
malformed is skipped, a 200 response with an empty Items list breaks the
loop, and a non-empty page is filtered and flushed into all_results. -/
def run_pages (q : Query) (retries : Nat) :
    List (List Attempt) → List ResultRecord → List ResultRecord
  | [], all_results => all_results
  | p :: rest, all_results =>
    match fetch_page retries p with
    | none => run_pages q retries rest all_results
    | some .malformed => run_pages q retries rest all_results
    | some (.items books) =>
      if books.isEmpty then all_results
      else run_pages q retries rest
        (all_results ++ process_page q all_results books [])

/-- search_books_with_volume from app.py: iterate pages 1..max_pages (the
scripted environment gives each page's attempt outcomes), accumulating the
filtered, deduplicated records.  Defaults are retries = 3, max_pages = 5. -/
def search_books_with_volume (q : Query) (retries max_pages : Nat)
    (pages : List (List Attempt)) : List ResultRecord :=
  run_pages q retries (pages.take max_pages) []

/-- The three required input fields of the append form. -/
inductive SheetField where
  | title
  | searchTitle
  | volume
deriving DecidableEq

/-- Result of pressing the append button: a field-specific validation error,
or a call to add_to_spreadsheet with the three stripped values. -/
inductive AppendOutcome where
  | fieldError (f : SheetField)
  | callAppend (t s v : List Char)
deriving DecidableEq

/-- The append-button handler of main (app.py lines 395-409): check the three
stripped fields in order, report the first empty one, otherwise call
add_to_spreadsheet with the stripped values. -/
def handle_append (sheet_title sheet_search_title sheet_volume : List Char) :
    AppendOutcome :=
  if (stripWs sheet_title).isEmpty then .fieldError .title
  else if (stripWs sheet_search_title).isEmpty then .fieldError .searchTitle
  else if (stripWs sheet_volume).isEmpty then .fieldError .volume
  else .callAppend (stripWs sheet_title) (stripWs sheet_search_title)
    (stripWs sheet_volume)

/-- The stored-selection guard of main (app.py lines 337-338): an index at or
past the current result count is reset to 0 before indexing. -/
def clamp_selected_index (stored result_count : Nat) : Nat :=
  if stored ≥ result_count then 0 else stored

/-- Success or failure of each external collaborator touched by
add_to_spreadsheet: credential loading (get_gspread_client returning a
client), the sheet-name secret lookup, opening the spreadsheet, and the
append_row call. -/
structure SheetsEnv where
  creds_ok : Bool
  sheet_name_ok : Bool
  open_ok : Bool
  append_ok : Bool

/-- Observable state around add_to_spreadsheet: the spreadsheet rows and the
session's search results and selection (which the function never touches). -/
structure SheetsState where
  rows : List (List (List Char))
  session_results : List ResultRecord
  session_index : Nat

/-- add_to_spreadsheet from app.py: every failure path (no client, missing
sheet-name secret, open raising, append_row raising) is caught by the
enclosing try/except and reported as False; only when all collaborators
succeed is the row [title, search_title, volume] appended and True
returned. -/
def add_to_spreadsheet (env : SheetsEnv) (w : SheetsState)
    (title search_title volume : List Char) : Bool × SheetsState :=
  if !env.creds_ok then (false, w)
  else if !env.sheet_name_ok then (false, w)
  else if !env.open_ok then (false, w)
  else if !env.append_ok then (false, w)
  else (true, { w with rows := w.rows ++ [[title, search_title, volume]] })

/-- The volume-notation variants listed by the specification for the volume
match: bare token, token+巻, token+話, 第+token+巻, parenthesized token,
space-padded token, and the vol. spellings.  Stated from the spec to compare
with the verbatim-substring check the code performs. -/
def spec_volume_variants (tok : List Char) : List (List Char) :=
  [tok,
   tok ++ ("巻".data),
   tok ++ ("話".data),
   ("第".data) ++ tok ++ ("巻".data),
   ("(".data) ++ tok ++ (")".data),
   (" ".data) ++ tok ++ (" ".data),
   ("vol.".data) ++ tok,
   ("Vol.".data) ++ tok,
   ("VOL.".data) ++ tok]

/-- A query with a one-letter title, no volume token and no price bounds,
used for concrete evaluations. -/
def exQuery : Query := ⟨("a".data), [], none, none⟩

/-- A matching record with ISBN 9 and price 1. -/
def exBook : Book := ⟨("a".data), ("9".data), [], RawPrice.num 1, none⟩

/-- A two-page script: page 1 returns the same record twice in one Items
list, page 2 is empty. -/
def exPages : List (List Attempt) :=
  [[Attempt.success 200 (PageBody.items [exBook, exBook])],
   [Attempt.success 200 (PageBody.items [])]]

/-- The display row built from exBook. -/
def exRecord : ResultRecord :=
  ⟨("a".data), ("9".data), [], ("1円".data), ("不明".data)⟩

/-- A matching record whose itemPrice key is absent. -/
def exAbsentBook : Book := ⟨("a".data), ("9".data), [], RawPrice.absent, none⟩

/-- The display row built from exAbsentBook: price renders as 0円. -/
def exAbsentRecord : ResultRecord :=
  ⟨("a".data), ("9".data), [], ("0円".data), ("不明".data)⟩

/-! ## Helper lemmas -/

theorem startsWithL_iff (n h : List Char) :
    startsWithL n h = true ↔ ∃ t, h = n ++ t := by
  induction n generalizing h with
  | nil => simp [startsWithL]
  | cons a as ih =>
    cases h with
    | nil => simp [startsWithL]
    | cons b bs =>
      simp only [startsWithL, Bool.and_eq_true, beq_iff_eq, ih, List.cons_append,
        List.cons.injEq]
      constructor
      · rintro ⟨rfl, t, rfl⟩
        exact ⟨t, rfl, rfl⟩
      · rintro ⟨t, rfl, rfl⟩
        exact ⟨rfl, t, rfl⟩

theorem containsSub_iff (h n : List Char) :
    containsSub h n = true ↔ ∃ p s, h = p ++ n ++ s := by
  induction h with
  | nil =>
    simp only [containsSub, List.isEmpty_iff]
    constructor
    · rintro rfl
      exact ⟨[], [], rfl⟩
    · rintro ⟨p, s, hs⟩
      rcases List.append_eq_nil.mp (List.append_eq_nil.mp hs.symm).1 with ⟨_, h2⟩
      exact h2
  | cons c t ih =>
    simp only [containsSub, Bool.or_eq_true, startsWithL_iff, ih]
    constructor
    · rintro (⟨s, hs⟩ | ⟨p, s, rfl⟩)
      · exact ⟨[], s, by simpa using hs⟩
      · exact ⟨c :: p, s, rfl⟩
    · rintro ⟨p, s, hp⟩
      cases p with
      | nil => exact Or.inl ⟨s, by simpa using hp⟩
      | cons x xs =>
        rcases List.cons.injEq .. ▸ hp with ⟨rfl, rfl⟩
        exact Or.inr ⟨xs, s, rfl⟩

/-- Substring occurrence is preserved by enlarging the needle context:
if hay contains a ++ n ++ b as a substring then hay contains n. -/
theorem containsSub_of_inner (hay a n b : List Char)
    (h : containsSub hay (a ++ n ++ b) = true) : containsSub hay n = true := by
  rcases (containsSub_iff ..).mp h with ⟨p, s, rfl⟩
  exact (containsSub_iff ..).mpr ⟨p ++ a, b ++ s, by simp⟩

/-- Computed price of an explicit number is that number. -/
theorem priceValue_num (n : Nat) : priceValue (RawPrice.num n) = some n := by
  by_cases h : n = 0 <;> simp [priceValue, h]

/-! ## Claim theorems -/

/-- C3: a record title passes the title filter iff every whitespace-separated
token of the case-folded query title occurs as a substring (not an exact
match) of the case-folded record title; in particular the query one piece
accepts One Piece 108 and rejects Piece Only. -/
theorem c3_title_filter_iff_all_tokens :
    (∀ b q, title_matches b q = true ↔
      ∀ w ∈ splitWs (lowerL q), ∃ p s, lowerL b = p ++ w ++ s)
    ∧ title_matches ("One Piece 108".data) ("one piece".data) = true
    ∧ title_matches ("Piece Only".data) ("one piece".data) = false := by
  refine ⟨fun b q => ?_, by decide, by decide⟩
  simp only [title_matches, List.all_eq_true]
  constructor
  · intro h w hw
    exact (containsSub_iff ..).mp (h w hw)
  · intro h w hw
    exact (containsSub_iff ..).mpr (h w hw)

/-- C8: with a non-empty volume token the record passes the volume filter iff
the token occurs verbatim as a substring of the title or one of the
recognized volume-notation variants occurs in the title (each variant
contains the bare token, so the disjunction coincides with the verbatim
substring check the code performs); an empty token rejects nothing. -/
theorem c8_volume_filter_iff_variants :
    (∀ book_title tok, volume_ok book_title tok = true ↔
      (tok = [] ∨ (∃ p s, book_title = p ++ tok ++ s) ∨
        ∃ v ∈ spec_volume_variants tok, ∃ p s, book_title = p ++ v ++ s))
    ∧ (∀ book_title, volume_ok book_title [] = true) := by
  constructor
  · intro bt tok
    simp only [volume_ok, Bool.or_eq_true, List.isEmpty_iff, containsSub_iff]
    constructor
    · rintro (h | h)
      · exact Or.inl h
      · exact Or.inr (Or.inl h)
    · rintro (h | h | ⟨v, hv, p, s, rfl⟩)
      · exact Or.inl h
      · exact Or.inr h
      · refine Or.inr ?_
        simp only [spec_volume_variants, List.mem_cons, List.mem_singleton,
          List.not_mem_nil, or_false] at hv
        rcases hv with rfl | rfl | rfl | rfl | rfl | rfl | rfl | rfl | rfl
        · exact ⟨p, s, rfl⟩
        · exact ⟨p, ("巻".data) ++ s, by simp⟩
        · exact ⟨p, ("話".data) ++ s, by simp⟩
        · exact ⟨p ++ ("第".data), ("巻".data) ++ s, by simp⟩
        · exact ⟨p ++ ("(".data), (")".data) ++ s, by simp⟩
        · exact ⟨p ++ (" ".data), (" ".data) ++ s, by simp⟩
        · exact ⟨p ++ ("vol.".data), s, by simp⟩
        · exact ⟨p ++ ("Vol.".data), s, by simp⟩
        · exact ⟨p ++ ("VOL.".data), s, by simp⟩
  · intro bt
    simp [volume_ok]

/-- C2 counterexample: with minPrice unset and maxPrice = 1000, a record with
absent price is accepted with computed price 0, not rejected — contradicting
the claim that an absent price is rejected whenever a bound is set (code
uses the fallback 0, which never exceeds a maximum). -/
theorem c2_counterexample_absent_passes_max :
    price_check RawPrice.absent none (some 1000) = some 0
    ∧ ¬ price_check RawPrice.absent none (some 1000) = none := by
  constructor
  · rfl
  · intro h
    simp [price_check, priceValue] at h

/-- C2 amended: the price filter treats an absent or falsy price as the
number 0: a record passes iff its parsed price value v satisfies every given
bound (m ≤ v for minPrice m, v ≤ M for maxPrice M), and an unparseable
truthy price is always rejected.  Hence with minPrice = 300 and
maxPrice = 1000 a 250-yen record is rejected, a 1000-yen record is accepted,
and an absent price is rejected; but under a maximum bound alone an absent
price passes as 0. -/
theorem c2_price_filter_amended :
    (∀ rp minP maxP v, price_check rp minP maxP = some v ↔
      (priceValue rp = some v ∧ (∀ m, minP = some m → m ≤ v)
        ∧ (∀ m, maxP = some m → v ≤ m)))
    ∧ price_check (RawPrice.num 250) (some 300) (some 1000) = none
    ∧ price_check (RawPrice.num 1000) (some 300) (some 1000) = some 1000
    ∧ price_check RawPrice.absent (some 300) (some 1000) = none
    ∧ (∀ minP maxP, price_check RawPrice.bad minP maxP = none) := by
  refine ⟨?_, by decide, by decide, by decide, fun minP maxP => rfl⟩
  intro rp minP maxP v
  cases rp with
  | bad => simp [price_check, priceValue]
  | absent =>
    cases minP <;> cases maxP <;>
      simp [price_check, priceValue, Nat.not_lt, eq_comm] <;> omega
  | num n =>
    cases minP <;> cases maxP <;>
      simp [price_check, priceValue_num, Nat.not_lt, eq_comm] <;> omega

/-- C1 counterexample: a single page whose Items list contains the same
record twice yields a result list with two entries sharing one ISBN — the
dedup check consults only the records accumulated from earlier pages, not
those accepted earlier within the same page, so the returned ISBNs are not
pairwise distinct. -/
theorem c1_counterexample_within_page_duplicate :
    ¬ List.Pairwise (fun a b => a.risbn ≠ b.risbn)
        (search_books_with_volume exQuery 3 5 exPages)
    ∧ (search_books_with_volume exQuery 3 5 exPages).map (fun r => r.risbn)
        = [("9".data), ("9".data)] := by
  refine ⟨?_, by decide⟩
  decide

/-- C1 amended: deduplication is against the result set accumulated from
strictly earlier pages: every record newly accepted while filtering a page
has an ISBN different from every record already in all_results, but records
accepted earlier within the same page are not consulted, so equal-ISBN
records inside one page can all be returned. -/
theorem c1_amended_dedup_across_pages :
    ∀ q all_results books page_results r,
      r ∈ process_page q all_results books page_results →
      r ∈ page_results ∨ ∀ x ∈ all_results, x.risbn ≠ r.risbn := by
  intro q acc books
  induction books with
  | nil =>
    intro init r h
    exact Or.inl h
  | cons b rest ih =>
    intro init r h
    simp only [process_page] at h
    cases hb : accept_book q b with
    | none =>
      rw [hb] at h
      exact ih init r h
    | some rec =>
      rw [hb] at h
      by_cases hd : acc.any (fun x => x.risbn == rec.risbn) = true
      · simp only [hd, if_true] at h
        exact ih init r h
      · simp only [hd, if_false] at h
        rcases ih _ r h with hmem | hn
        · rcases List.mem_append.mp hmem with h1 | h1
          · exact Or.inl h1
          · rcases List.mem_singleton.mp h1 with rfl
            refine Or.inr fun x hx he => ?_
            exact hd (List.any_eq_true.mpr ⟨x, hx, by simp [he]⟩)
        · exact Or.inr hn

/-- C1 amended witness: the concrete record accepted from exBook on an
otherwise empty accumulated list instantiates the dedup property. -/
theorem c1_amended_dedup_witness :
    exRecord ∈ ([] : List ResultRecord)
    ∨ ∀ x ∈ ([] : List ResultRecord), x.risbn ≠ exRecord.risbn :=
  c1_amended_dedup_across_pages exQuery [] [exBook] [] exRecord (by decide)

/-- C4: pagination is bounded by the page cap (pages past the cap are never
consulted) and stops at the first successfully fetched page whose Items list
is empty: the run over pre ++ p :: post equals the run over pre ++ [p]
whenever page p fetches an empty Items list, so no page after an empty page
contributes records even below the cap. -/
theorem c4_pagination_cap_and_empty_stop :
    (∀ q retries cap pages,
      search_books_with_volume q retries cap pages
        = search_books_with_volume q retries cap (pages.take cap))
    ∧ (∀ q retries pre p post acc,
        fetch_page retries p = some (PageBody.items []) →
        run_pages q retries (pre ++ p :: post) acc
          = run_pages q retries (pre ++ [p]) acc) := by
  constructor
  · intro q r cap pages
    simp [search_books_with_volume, List.take_take]
  · intro q r pre
    induction pre with
    | nil =>
      intro p post acc h
      simp only [List.nil_append, run_pages, h, List.isEmpty_nil, if_true]
    | cons a rest ih =>
      intro p post acc h
      simp only [List.cons_append, run_pages]
      cases ha : fetch_page r a with
      | none => exact ih p post acc h
      | some body =>
        cases body with
        | malformed => exact ih p post acc h
        | items books =>
          by_cases hb : books.isEmpty = true
          · simp only [hb, if_true]
          · simp only [hb, if_false]
            exact ih p post _ h

/-- Exhausting the retry budget with non-200 or transport-failing attempts
makes the page fetch fail. -/
theorem fetch_page_none_of_all_fail :
    ∀ retries attempts, (∀ a ∈ List.take retries attempts, attemptOk a = false) →
      fetch_page retries attempts = none := by
  intro retries
  induction retries with
  | zero => intro attempts _; rfl
  | succ r ih =>
    intro attempts h
    cases attempts with
    | nil =>
      show fetch_page r [] = none
      exact ih [] (by simp)
    | cons a rest =>
      have ha : attemptOk a = false := h a (by simp [List.take])
      have hrest : ∀ x ∈ List.take r rest, attemptOk x = false := by
        intro x hx
        exact h x (by simp [List.take, hx])
      cases a with
      | transportFail => exact ih rest hrest
      | success status body =>
        simp only [attemptOk] at ha
        simp only [fetch_page, ha, if_false]
        exact ih rest hrest

/-- The retry loop issues at most retries requests. -/
theorem attemptsUsed_le : ∀ retries attempts, attemptsUsed retries attempts ≤ retries := by
  intro retries
  induction retries with
  | zero => intro attempts; simp [attemptsUsed]
  | succ r ih =>
    intro attempts
    cases attempts with
    | nil =>
      simp only [attemptsUsed]
      have := ih ([] : List Attempt)
      omega
    | cons a rest =>
      simp only [attemptsUsed]
      by_cases h : attemptOk a = true
      · simp [h]
      · rw [Bool.not_eq_true] at h
        simp only [h, Bool.false_eq_true, if_false]
        have := ih rest
        omega

/-- C5: a page all of whose first three attempts fail (non-200 status or
transport failure) contributes zero records and the loop proceeds to the
following pages; the retry loop issues at most three requests for any
page. -/
theorem c5_retry_exhaustion_skips_page :
    ∀ q attempts post acc,
      (∀ a ∈ List.take 3 attempts, attemptOk a = false) →
      (run_pages q 3 (attempts :: post) acc = run_pages q 3 post acc
        ∧ attemptsUsed 3 attempts ≤ 3) := by
  intro q attempts post acc h
  refine ⟨?_, attemptsUsed_le 3 attempts⟩
  simp only [run_pages, fetch_page_none_of_all_fail 3 attempts h]

/-- C5 witness: a page whose three scripted attempts are a transport error, a
404 and a 500 is skipped and its request count is within the budget. -/
theorem c5_retry_witness :
    run_pages exQuery 3
        ([Attempt.transportFail, Attempt.success 404 PageBody.malformed,
          Attempt.success 500 PageBody.malformed] :: []) []
      = run_pages exQuery 3 [] []
    ∧ attemptsUsed 3
        [Attempt.transportFail, Attempt.success 404 PageBody.malformed,
          Attempt.success 500 PageBody.malformed] ≤ 3 :=
  c5_retry_exhaustion_skips_page exQuery
    [Attempt.transportFail, Attempt.success 404 PageBody.malformed,
      Attempt.success 500 PageBody.malformed] [] [] (by decide)

/-- C4 witness: with page 1 empty and a non-empty page 2 scripted after it,
the run equals the run that never consults page 2. -/
theorem c4_empty_stop_witness :
    run_pages exQuery 3
        ([] ++ [Attempt.success 200 (PageBody.items [])]
          :: [[Attempt.success 200 (PageBody.items [exBook])]]) []
      = run_pages exQuery 3 ([] ++ [[Attempt.success 200 (PageBody.items [])]]) [] :=
  c4_pagination_cap_and_empty_stop.2 exQuery 3 []
    [Attempt.success 200 (PageBody.items [])]
    [[Attempt.success 200 (PageBody.items [exBook])]] [] (by decide)

/-- C6: the append handler reports a field-specific validation error exactly
when one of the three fields is empty after stripping, and calls the
external append operation with the three stripped values exactly when all
three are non-empty. -/
theorem c6_append_validation :
    ∀ t s v,
      ((∃ f, handle_append t s v = AppendOutcome.fieldError f) ↔
        (stripWs t = [] ∨ stripWs s = [] ∨ stripWs v = []))
      ∧ (stripWs t ≠ [] → stripWs s ≠ [] → stripWs v ≠ [] →
          handle_append t s v
            = AppendOutcome.callAppend (stripWs t) (stripWs s) (stripWs v)) := by
  intro t s v
  by_cases h1 : (stripWs t).isEmpty = true
  · rw [List.isEmpty_iff] at h1
    refine ⟨⟨fun _ => Or.inl h1, fun _ => ⟨.title, ?_⟩⟩, fun ht _ _ => absurd h1 ht⟩
    simp [handle_append, h1]
  · have h1' : stripWs t ≠ [] := fun he => h1 (by simp [he])
    by_cases h2 : (stripWs s).isEmpty = true
    · rw [List.isEmpty_iff] at h2
      refine ⟨⟨fun _ => Or.inr (Or.inl h2), fun _ => ⟨.searchTitle, ?_⟩⟩,
        fun _ hs _ => absurd h2 hs⟩
      simp [handle_append, h1, h2]
    · have h2' : stripWs s ≠ [] := fun he => h2 (by simp [he])
      by_cases h3 : (stripWs v).isEmpty = true
      · rw [List.isEmpty_iff] at h3
        refine ⟨⟨fun _ => Or.inr (Or.inr h3), fun _ => ⟨.volume, ?_⟩⟩,
          fun _ _ hv => absurd h3 hv⟩
        simp [handle_append, h1, h2, h3]
      · have h3' : stripWs v ≠ [] := fun he => h3 (by simp [he])
        have he : handle_append t s v
            = AppendOutcome.callAppend (stripWs t) (stripWs s) (stripWs v) := by
          simp [handle_append, h1, h2, h3]
        refine ⟨⟨?_, ?_⟩, fun _ _ _ => he⟩
        · rintro ⟨f, hf⟩
          rw [he] at hf
          simp at hf
        · rintro (h | h | h)
          · exact absurd h h1'
          · exact absurd h h2'
          · exact absurd h h3'

/-- C6 witness: with an empty volume field the handler reports the volume
error; with all fields filled it calls append with the stripped values. -/
theorem c6_append_validation_witness :
    ((∃ f, handle_append ("a".data) ("b".data) (" ".data)
        = AppendOutcome.fieldError f) ↔
      (stripWs ("a".data) = [] ∨ stripWs ("b".data) = []
        ∨ stripWs (" ".data) = []))
    ∧ (stripWs ("a".data) ≠ [] → stripWs ("b".data) ≠ [] →
        stripWs (" ".data) ≠ [] →
        handle_append ("a".data) ("b".data) (" ".data)
          = AppendOutcome.callAppend (stripWs ("a".data)) (stripWs ("b".data))
              (stripWs (" ".data))) :=
  c6_append_validation ("a".data) ("b".data) (" ".data)

/-- C7: for a non-empty result list, the stored selection index is reset to 0
when it is at or past the result count and kept otherwise, so the index used
for display is always within bounds. -/
theorem c7_selection_clamp :
    ∀ stored n, 0 < n →
      (clamp_selected_index stored n < n
        ∧ (stored ≥ n → clamp_selected_index stored n = 0)
        ∧ (stored < n → clamp_selected_index stored n = stored)) := by
  intro stored n hn
  refine ⟨?_, ?_, ?_⟩ <;> unfold clamp_selected_index <;> split_ifs <;> omega

/-- C7 witness: a stored index 5 against 3 results resets to 0 and is in
bounds. -/
theorem c7_selection_clamp_witness :
    clamp_selected_index 5 3 < 3
    ∧ (5 ≥ 3 → clamp_selected_index 5 3 = 0)
    ∧ (5 < 3 → clamp_selected_index 5 3 = 5) :=
  c7_selection_clamp 5 3 (by decide)

/-- C9 counterexample: a record whose price is absent is still accepted under
a query with no bounds, and its price field renders as 0円 rather than the
unknown marker 不明 — contradicting the claim that an absent price falls
back to the unknown marker (only the publisher does). -/
theorem c9_counterexample_absent_price_renders_zero :
    accept_book exQuery exAbsentBook = some exAbsentRecord
    ∧ exAbsentRecord.rprice = ("0円".data)
    ∧ ("0円".data) ≠ ("不明".data) := by
  refine ⟨by decide, rfl, by decide⟩

/-- C9 amended: every accepted record's price field is the computed price
value (absent and falsy prices become 0) rendered as digits followed by the
yen sign, and the publisher field falls back to the unknown marker exactly
when publisherName is absent; the price field never uses the unknown
marker. -/
theorem c9_amended_output_formatting :
    ∀ q b r, accept_book q b = some r →
      (∃ v, price_check b.itemPrice q.min_price q.max_price = some v
        ∧ r.rprice = (Nat.repr v).data ++ ['円'])
      ∧ r.rpublisher = formatPublisher b.publisherName
      ∧ (b.publisherName = none → r.rpublisher = ("不明".data)) := by
  intro q b r h
  simp only [accept_book] at h
  split at h
  · simp at h
  · split at h
    · simp at h
    · split at h
      next => simp at h
      next v hv =>
        rw [Option.some.injEq] at h
        subst h
        refine ⟨⟨v, hv, rfl⟩, rfl, ?_⟩
        intro hp
        simp [formatPublisher, hp]

/-- C9 amended witness: the record accepted from exBook (price 1, publisher
absent) carries the rendered price 1円 and the unknown publisher marker. -/
theorem c9_amended_witness :
    (∃ v, price_check exBook.itemPrice exQuery.min_price exQuery.max_price = some v
      ∧ exRecord.rprice = (Nat.repr v).data ++ ['円'])
    ∧ exRecord.rpublisher = formatPublisher exBook.publisherName
    ∧ (exBook.publisherName = none → exRecord.rpublisher = ("不明".data)) :=
  c9_amended_output_formatting exQuery exBook exRecord (by decide)

/-- C10: add_to_spreadsheet is a total function of its collaborators'
outcomes (every exception is caught and reported as False): it returns True
exactly when credential loading, the sheet-name lookup, opening and
appending all succeed, in which case exactly the row of the three given
values is appended; on any failure it returns False with the rows unchanged;
the session's results and selection are untouched either way. -/
theorem c10_add_to_spreadsheet_effects :
    ∀ env w t s v,
      ((add_to_spreadsheet env w t s v).1 = true ↔
        (env.creds_ok && env.sheet_name_ok && env.open_ok && env.append_ok) = true)
      ∧ ((add_to_spreadsheet env w t s v).1 = true →
          (add_to_spreadsheet env w t s v).2.rows = w.rows ++ [[t, s, v]])
      ∧ ((add_to_spreadsheet env w t s v).1 = false →
          (add_to_spreadsheet env w t s v).2.rows = w.rows)
      ∧ (add_to_spreadsheet env w t s v).2.session_results = w.session_results
      ∧ (add_to_spreadsheet env w t s v).2.session_index = w.session_index := by
  intro env w t s v
  unfold add_to_spreadsheet
  cases env with
  | mk c sn o ap =>
    cases c <;> cases sn <;> cases o <;> cases ap <;> simp

/-- C10 witness: with all collaborators succeeding, the call returns True and
appends exactly the given row, leaving the session untouched. -/
theorem c10_add_to_spreadsheet_witness :
    ((add_to_spreadsheet ⟨true, true, true, true⟩ ⟨[], [], 0⟩
        ("a".data) ("b".data) ("c".data)).1 = true ↔
      ((true : Bool) && true && true && true) = true)
    ∧ ((add_to_spreadsheet ⟨true, true, true, true⟩ ⟨[], [], 0⟩
          ("a".data) ("b".data) ("c".data)).1 = true →
        (add_to_spreadsheet ⟨true, true, true, true⟩ ⟨[], [], 0⟩
          ("a".data) ("b".data) ("c".data)).2.rows
          = [] ++ [[("a".data), ("b".data), ("c".data)]])
    ∧ ((add_to_spreadsheet ⟨true, true, true, true⟩ ⟨[], [], 0⟩
          ("a".data) ("b".data) ("c".data)).1 = false →
        (add_to_spreadsheet ⟨true, true, true, true⟩ ⟨[], [], 0⟩
          ("a".data) ("b".data) ("c".data)).2.rows = [])
    ∧ (add_to_spreadsheet ⟨true, true, true, true⟩ ⟨[], [], 0⟩
        ("a".data) ("b".data) ("c".data)).2.session_results = []
    ∧ (add_to_spreadsheet ⟨true, true, true, true⟩ ⟨[], [], 0⟩
        ("a".data) ("b".data) ("c".data)).2.session_index = 0 :=
  c10_add_to_spreadsheet_effects ⟨true, true, true, true⟩ ⟨[], [], 0⟩
    ("a".data) ("b".data) ("c".data)

/-- C2 amended witness: a 500-yen record passes the 300..1000 filter, by the
characterization instantiated at concrete bounds. -/
theorem c2_price_filter_witness :
    price_check (RawPrice.num 500) (some 300) (some 1000) = some 500 :=
  (c2_price_filter_amended.1 (RawPrice.num 500) (some 300) (some 1000) 500).mpr
    ⟨by decide,
     by intro m hm; injection hm with hm2; omega,
     by intro m hm; injection hm with hm2; omega⟩

/-- C3 witness: instantiating the equivalence at the worked example exhibits
the token piece occurring inside the case-folded record title. -/
theorem c3_title_filter_witness :
    ∃ p s, lowerL ("One Piece 108".data) = p ++ ("piece".data) ++ s :=
  (c3_title_filter_iff_all_tokens.1 ("One Piece 108".data) ("one piece".data)).mp
    (by decide) ("piece".data) (by decide)

/-- C8 witness: the title One Piece 108 passes the volume filter for token
108 because the token occurs verbatim. -/
theorem c8_volume_filter_witness :
    volume_ok ("One Piece 108".data) ("108".data) = true :=
  (c8_volume_filter_iff_variants.1 ("One Piece 108".data) ("108".data)).mpr
    (Or.inr (Or.inl ⟨("One Piece ".data), [], by decide⟩))

end MangaSearch
